import Mathlib

/-!
Verification of the Autohide visibility controller of waybar-ai
(src/modules/autohide.cpp, include/modules/autohide.hpp).

The controller is a four-state timer-driven state machine fed by a
background poller.  Each poll cycle (Autohide::checkMousePosition) queries
the global cursor position over Hyprland IPC, checks the cursor against the
monitor rectangle, classifies the monitor-relative y coordinate into zones,
performs the debounced show/hide transitions, and finally runs the timer
expiry check.  The functions below are a shallow embedding of that code:
state is passed explicitly, timestamps are natural numbers of milliseconds
of a monotonic clock, the C++ int is modelled as Int, and the uint32_t
configuration fields as Nat together with an explicit wrap-to-int32 cast
where the code performs a static_cast to int.
-/

namespace Autohide

/-- The WaybarState enumeration of include/modules/autohide.hpp. -/
inductive WaybarState
  | VISIBLE
  | HIDDEN
  | PENDING_VISIBLE
  | PENDING_HIDDEN
  deriving DecidableEq, Repr

/-- The configuration values the constructor (autohide.cpp lines 40-46)
actually reads from JSON.  All are uint32_t in the source; the constructor
reads exactly the five keys threshold-hidden-y, threshold-visible-y,
delay-show, delay-hide and check-interval.  No key named
consecutive-checks-before-visible is read anywhere in the translation unit,
so Config has no such field. -/
structure Config where
  thresholdHiddenY : Nat
  thresholdVisibleY : Nat
  delayShow : Nat
  delayHide : Nat
  checkInterval : Nat
  deriving DecidableEq, Repr

/-- Construction-time configuration loading (autohide.cpp lines 40-46).
Each argument is some v when the JSON key holds a uint, none otherwise;
the defaults are those of the source. -/
def configFromJson (thresholdHiddenY? thresholdVisibleY? delayShow? delayHide?
    checkInterval? : Option Nat) : Config :=
  { thresholdHiddenY := thresholdHiddenY?.getD 1
    thresholdVisibleY := thresholdVisibleY?.getD 50
    delayShow := delayShow?.getD 0
    delayHide := delayHide?.getD 3000
    checkInterval := checkInterval?.getD 100 }

/-- A GdkRectangle-style monitor geometry as read from
bar_->output->monitor->property_geometry() (autohide.cpp line 163). -/
structure Geometry where
  x : Int
  y : Int
  width : Int
  height : Int
  deriving DecidableEq, Repr

/-- The MonitorCache struct declared in include/modules/autohide.hpp
(lines 61-68): cached monitor data guarded by monitor_cache_mutex_,
documented as updated on the main thread and read on the background
thread. -/
structure MonitorCache where
  x : Int
  y : Int
  width : Int
  height : Int
  name : String
  valid : Bool
  deriving DecidableEq, Repr

/-- The mutable per-sample state of the controller: waybar_state_,
timer_start_ (milliseconds of a monotonic clock) and the boolean show
debounce flag last_trigger_was_show_ used by autohide.cpp. -/
structure AState where
  state : WaybarState
  timer : Nat
  lastTriggerWasShow : Bool
  deriving DecidableEq, Repr

/-- Result of one poll cycle: the new mutable state and whether dp.emit()
was invoked (the request that the main thread apply visibility). -/
structure StepResult where
  st : AState
  emit : Bool
  deriving DecidableEq, Repr

/-- The C++ static_cast from uint32_t to int: wrap modulo 2^32 into the
signed 32-bit range. -/
def toInt32 (u : Nat) : Int :=
  if u % 2 ^ 32 < 2 ^ 31 then ((u % 2 ^ 32 : Nat) : Int)
  else ((u % 2 ^ 32 : Nat) : Int) - 2 ^ 32

/-- Zone classification and debounced transitions of
Autohide::checkMousePosition, lines 182-229: yRel is the monitor-relative
cursor y (monitor_mouse_y), now the current monotonic time in ms.  The top
branch requires last_trigger_was_show_ to already be set (second
consecutive top sample) before acting; the bottom branch schedules a hide
from VISIBLE or PENDING_VISIBLE and deliberately leaves the timer alone
when already PENDING_HIDDEN; the middle branch only clears the flag. -/
def zonePhase (cfg : Config) (now : Nat) (yRel : Int) (s : AState) : AState :=
  if yRel ≤ toInt32 cfg.thresholdHiddenY then
    let s1 :=
      if s.lastTriggerWasShow then
        if s.state = WaybarState.HIDDEN then
          { s with state := WaybarState.PENDING_VISIBLE, timer := now }
        else if s.state = WaybarState.PENDING_HIDDEN then
          { s with state := WaybarState.PENDING_VISIBLE, timer := now }
        else s
      else s
    { s1 with lastTriggerWasShow := true }
  else if toInt32 cfg.thresholdVisibleY < yRel then
    let s1 :=
      if s.state = WaybarState.VISIBLE then
        { s with state := WaybarState.PENDING_HIDDEN, timer := now }
      else if s.state = WaybarState.PENDING_VISIBLE then
        { s with state := WaybarState.PENDING_HIDDEN, timer := now }
      else s
    { s1 with lastTriggerWasShow := false }
  else
    { s with lastTriggerWasShow := false }

/-- Timer expiry check of Autohide::checkMousePosition, lines 231-251:
elapsed is the millisecond count now - timer_start_; the effective delay is
the configured delay clamped below by 10.  The two expiring transitions
invoke dp.emit(). -/
def expiryPhase (cfg : Config) (now : Nat) (s : AState) : StepResult :=
  let elapsed : Int := (now : Int) - (s.timer : Int)
  if s.state = WaybarState.PENDING_VISIBLE then
    if ((max cfg.delayShow 10 : Nat) : Int) ≤ elapsed then
      { st := { s with state := WaybarState.VISIBLE }, emit := true }
    else { st := s, emit := false }
  else if s.state = WaybarState.PENDING_HIDDEN then
    if ((max cfg.delayHide 10 : Nat) : Int) ≤ elapsed then
      { st := { s with state := WaybarState.HIDDEN }, emit := true }
    else { st := s, emit := false }
  else { st := s, emit := false }

/-- One full poll cycle, Autohide::checkMousePosition (lines 149-252).
mousePos? is the parsed cursorpos IPC reply (none when getMousePosition
failed), geom? the live monitor geometry the code reads from the toolkit
object at line 163 (none when bar_, output or monitor is null).  A failed
query, missing geometry or a cursor outside the half-open monitor
rectangle returns the state unchanged with no emit. -/
def checkMousePosition (cfg : Config) (mousePos? : Option (Int × Int))
    (geom? : Option Geometry) (now : Nat) (s : AState) : StepResult :=
  match mousePos? with
  | none => { st := s, emit := false }
  | some (mx, my) =>
    match geom? with
    | none => { st := s, emit := false }
    | some g =>
      if mx < g.x ∨ g.x + g.width ≤ mx ∨ my < g.y ∨ g.y + g.height ≤ my then
        { st := s, emit := false }
      else
        expiryPhase cfg now (zonePhase cfg now (my - g.y) s)

/-- The poll cycle with the cached monitor snapshot in scope, as in the
real member function: checkMousePosition has access to cached_monitor_ but
never reads it; the geometry it uses is the live toolkit geometry of
line 163, fetched on the poller thread.  The cache argument is therefore
dead, which this definition makes explicit. -/
def checkMousePositionWithCache (cfg : Config) (_cache : MonitorCache)
    (mousePos? : Option (Int × Int)) (geom? : Option Geometry) (now : Nat)
    (s : AState) : StepResult :=
  checkMousePosition cfg mousePos? geom? now s

/-- Character-level whitespace test of std::isspace in the default locale,
as skipped by std::stoi. -/
def isSpaceChar (c : Char) : Bool :=
  c = ' ' ∨ c = '\t' ∨ c = '\n' ∨ c = Char.ofNat 11 ∨ c = Char.ofNat 12 ∨
    c = '\r'

/-- Value of a list of decimal digit characters. -/
def digitsVal (ds : List Char) : Nat :=
  List.foldl (fun a c => a * 10 + (c.toNat - 48)) 0 ds

/-- Model of std::stoi on a substring of the IPC reply: skip leading
whitespace, consume one optional sign, then the longest run of decimal
digits.  No digit gives none (std::invalid_argument); a value outside the
32-bit int range gives none (std::out_of_range); otherwise the signed
value of the digit run is returned and any trailing characters are
ignored, exactly as std::stoi ignores them. -/
def stoi (s : List Char) : Option Int :=
  let s1 := s.dropWhile (fun c => isSpaceChar c)
  let signed : Bool × List Char :=
    match s1 with
    | '-' :: rest => (true, rest)
    | '+' :: rest => (false, rest)
    | rest => (false, rest)
  let ds := signed.2.takeWhile (fun c => c.isDigit)
  if ds.isEmpty then none
  else
    let v : Int := if signed.1 then -(digitsVal ds : Int) else (digitsVal ds : Int)
    if v < -(2 ^ 31 : Int) ∨ (2 ^ 31 - 1 : Int) < v then none else some v

/-- Split a string at its first comma, mirroring reply.find(',') followed
by the two substr calls of Autohide::getMousePosition; none when the
string has no comma. -/
def splitAtFirstComma : List Char → Option (List Char × List Char)
  | [] => none
  | c :: rest =>
    if c = ',' then some ([], rest)
    else
      match splitAtFirstComma rest with
      | none => none
      | some (l, r) => some (c :: l, r)

/-- Autohide::getMousePosition (lines 265-286) as a function of the raw
cursorpos reply: none models a false return (empty reply, no comma, or a
std::stoi exception caught by the surrounding try block). -/
def getMousePosition (reply : List Char) : Option (Int × Int) :=
  if reply.isEmpty then none
  else
    match splitAtFirstComma reply with
    | none => none
    | some (l, r) =>
      match stoi l, stoi r with
      | some x, some y => some (x, y)
      | _, _ => none

/-- A whole string that is an integer literal: one optional sign followed
by a nonempty run of decimal digits and nothing else.  This formalises the
specification's notion of integer content of one side of the comma. -/
def isIntegerLiteral (s : List Char) : Bool :=
  let s1 :=
    match s with
    | '-' :: rest => rest
    | '+' :: rest => rest
    | rest => rest
  !s1.isEmpty && s1.all (fun c => c.isDigit)

/-- The two bar modes Autohide::update selects between. -/
inductive BarMode
  | MODE_DEFAULT
  | MODE_INVISIBLE
  deriving DecidableEq, Repr

/-- Autohide::update (lines 296-313) as a pure function of the state: the
mode passed to bar_->setMode. -/
def updateMode : WaybarState → BarMode
  | WaybarState.VISIBLE => BarMode.MODE_DEFAULT
  | WaybarState.PENDING_HIDDEN => BarMode.MODE_DEFAULT
  | WaybarState.HIDDEN => BarMode.MODE_INVISIBLE
  | WaybarState.PENDING_VISIBLE => BarMode.MODE_INVISIBLE

/-- Event-name extraction of Autohide::onEvent (lines 324-331): the
substring before the first greater-than delimiter, or the whole string
when there is none. -/
def eventNameOf (ev : List Char) : List Char :=
  ev.takeWhile (fun c => c ≠ '>')

/-- Autohide::onEvent (lines 324-340): on workspacev2 or focusedmonv2 the
state is unconditionally set to VISIBLE and dp.emit() is invoked; any
other event leaves the state alone and emits nothing.  The timer and the
debounce flag are never touched by this handler. -/
def onEvent (ev : List Char) (s : WaybarState) : WaybarState × Bool :=
  if eventNameOf ev = "workspacev2".toList ∨ eventNameOf ev = "focusedmonv2".toList
  then (WaybarState.VISIBLE, true)
  else (s, false)

end Autohide

namespace Autohide

/-- Claim C1 (code_bug evidence).  The show debounce of checkMousePosition
is the hard-coded boolean two-trigger mechanism of lines 182-207: from
HIDDEN, the first top-zone sample only sets last_trigger_was_show_, and
the second consecutive top-zone sample already enters PENDING_VISIBLE and
resets the timer.  The constructor (lines 40-46) never reads a key named
consecutive-checks-before-visible, so with that key configured to 3 the
claimed behaviour (two samples leave the state Hidden) does not hold: two
samples suffice regardless of configuration. -/
theorem c1_hardcoded_two_trigger_debounce :
    checkMousePosition (configFromJson none none none none none) (some (100, 0))
        (some { x := 0, y := 0, width := 1920, height := 1080 }) 100
        { state := WaybarState.HIDDEN, timer := 0, lastTriggerWasShow := false } =
      { st := { state := WaybarState.HIDDEN, timer := 0, lastTriggerWasShow := true },
        emit := false } ∧
    checkMousePosition (configFromJson none none none none none) (some (100, 0))
        (some { x := 0, y := 0, width := 1920, height := 1080 }) 200
        { state := WaybarState.HIDDEN, timer := 0, lastTriggerWasShow := true } =
      { st := { state := WaybarState.PENDING_VISIBLE, timer := 200,
                lastTriggerWasShow := true },
        emit := false } := by
  constructor <;> rfl

/-- Claim C2 (code_bug evidence).  The poll cycle is entirely independent
of the MonitorCache snapshot: checkMousePositionWithCache ignores its
cache argument (the source never reads cached_monitor_ inside
checkMousePosition, it dereferences the live toolkit monitor object at
line 163 on the poller thread), and with a cache whose valid flag is
false the cycle still mutates the state (VISIBLE to PENDING_HIDDEN)
instead of skipping the sample. -/
theorem c2_poller_reads_live_geometry :
    (∀ (cache : MonitorCache) (cfg : Config) (mousePos? : Option (Int × Int))
        (geom? : Option Geometry) (now : Nat) (s : AState),
      checkMousePositionWithCache cfg cache mousePos? geom? now s =
        checkMousePosition cfg mousePos? geom? now s) ∧
    (checkMousePositionWithCache (configFromJson none none none none none)
        { x := 0, y := 0, width := 0, height := 0, name := "", valid := false }
        (some (100, 60)) (some { x := 0, y := 0, width := 1920, height := 1080 }) 1000
        { state := WaybarState.VISIBLE, timer := 0, lastTriggerWasShow := false }).st.state =
      WaybarState.PENDING_HIDDEN :=
  ⟨fun _ _ _ _ _ _ => rfl, rfl⟩

/-- Claim C5: for every raw event string whose extracted event name is
workspacev2 or focusedmonv2 and every current state, onEvent sets the
state to VISIBLE and invokes dp.emit (the main-task visibility apply). -/
theorem c5_forced_visible_on_named_events (ev : List Char) (s : WaybarState)
    (h : eventNameOf ev = "workspacev2".toList ∨
      eventNameOf ev = "focusedmonv2".toList) :
    onEvent ev s = (WaybarState.VISIBLE, true) := by
  unfold onEvent
  rw [if_pos h]

/-- Witness for C5: a workspacev2 event with a payload, from HIDDEN. -/
theorem c5_forced_visible_on_named_events_witness :
    onEvent ("workspacev2>3,web".toList) WaybarState.HIDDEN =
      (WaybarState.VISIBLE, true) :=
  c5_forced_visible_on_named_events _ _ (Or.inl (by decide))

/-- Claim C9: for every raw event string whose extracted event name is
neither workspacev2 nor focusedmonv2, onEvent leaves the state unchanged
and emits nothing (and the handler touches neither timer nor counter,
which are not inputs of onEvent at all). -/
theorem c9_unrelated_events_ignored (ev : List Char) (s : WaybarState)
    (h : ¬(eventNameOf ev = "workspacev2".toList ∨
      eventNameOf ev = "focusedmonv2".toList)) :
    onEvent ev s = (s, false) := by
  unfold onEvent
  rw [if_neg h]

/-- Witness for C9: an openwindow event from PENDING_HIDDEN. -/
theorem c9_unrelated_events_ignored_witness :
    onEvent ("openwindow>abc".toList) WaybarState.PENDING_HIDDEN =
      (WaybarState.PENDING_HIDDEN, false) :=
  c9_unrelated_events_ignored _ _ (by decide)

/-- Claim C6: update is a pure two-valued function of the state, mapping
VISIBLE and PENDING_HIDDEN to the default (shown) mode and HIDDEN and
PENDING_VISIBLE to the invisible mode. -/
theorem c6_apply_visibility_two_valued :
    ∀ s : WaybarState,
      (updateMode s = BarMode.MODE_DEFAULT ↔
        (s = WaybarState.VISIBLE ∨ s = WaybarState.PENDING_HIDDEN)) ∧
      (updateMode s = BarMode.MODE_INVISIBLE ↔
        (s = WaybarState.HIDDEN ∨ s = WaybarState.PENDING_VISIBLE)) := by
  intro s
  cases s <;> simp [updateMode]

/-- Counterexample for C7 as stated: the reply 12x,34 has non-integer
content on the left of the comma (12x is not an integer literal), yet the
query succeeds with (12, 34), because std::stoi parses the longest
integer prefix and ignores trailing characters. -/
theorem c7_query_failure_cex :
    getMousePosition ("12x,34".toList) = some (12, 34) ∧
    isIntegerLiteral ("12x".toList) = false := by
  constructor <;> rfl

/-- Amended claim C7: the cursor query fails exactly when the reply is
empty, has no comma, or std::stoi fails on a side of the first comma (no
digit after optional whitespace and sign, or a value outside the int
range); and a failed query aborts the poll cycle with state, timer and
counter unchanged and no emit. -/
theorem c7_query_failure_characterization :
    (∀ reply : List Char,
      getMousePosition reply = none ↔
        (reply = [] ∨ splitAtFirstComma reply = none ∨
          (∃ l r, splitAtFirstComma reply = some (l, r) ∧
            (stoi l = none ∨ stoi r = none)))) ∧
    (∀ (cfg : Config) (geom? : Option Geometry) (now : Nat) (s : AState),
      checkMousePosition cfg none geom? now s = { st := s, emit := false }) := by
  constructor
  · intro reply
    unfold getMousePosition
    rcases reply with _ | ⟨c, cs⟩
    · simp
    · rcases h : splitAtFirstComma (c :: cs) with _ | ⟨l, r⟩
      · simp [h]
      · rcases hl : stoi l with _ | x
        · simp only [h, hl]
          simp
          exact ⟨l, r, ⟨rfl, rfl⟩, Or.inl hl⟩
        · rcases hr : stoi r with _ | y
          · simp only [h, hl, hr]
            simp
            exact ⟨l, r, ⟨rfl, rfl⟩, Or.inr hr⟩
          · simp [h, hl, hr]
  · intro cfg geom? now s
    rfl

end Autohide

namespace Autohide

/-- Claim C4: a sample with unavailable geometry (null bar, output or
monitor) or with the cursor outside the half-open monitor rectangle
leaves the whole mutable state (visibility state, timer, debounce
counter) unchanged and requests no visibility apply. -/
theorem c4_inapplicable_sample_no_mutation (cfg : Config) (now : Nat)
    (s : AState) (mx my : Int) (g : Geometry)
    (hout : mx < g.x ∨ g.x + g.width ≤ mx ∨ my < g.y ∨ g.y + g.height ≤ my) :
    checkMousePosition cfg (some (mx, my)) none now s =
      { st := s, emit := false } ∧
    checkMousePosition cfg (some (mx, my)) (some g) now s =
      { st := s, emit := false } := by
  refine ⟨rfl, ?_⟩
  show (if mx < g.x ∨ g.x + g.width ≤ mx ∨ my < g.y ∨ g.y + g.height ≤ my then
      ({ st := s, emit := false } : StepResult)
    else expiryPhase cfg now (zonePhase cfg now (my - g.y) s)) =
    { st := s, emit := false }
  rw [if_pos hout]

/-- Witness for C4: the cursor at x = 2000 is outside a 1920-wide monitor
at the origin; the sample is skipped from state PENDING_HIDDEN. -/
theorem c4_inapplicable_sample_no_mutation_witness :
    checkMousePosition (configFromJson none none none none none)
        (some (2000, 60)) (some { x := 0, y := 0, width := 1920, height := 1080 })
        4000 { state := WaybarState.PENDING_HIDDEN, timer := 1000,
               lastTriggerWasShow := true } =
      { st := { state := WaybarState.PENDING_HIDDEN, timer := 1000,
                lastTriggerWasShow := true },
        emit := false } :=
  (c4_inapplicable_sample_no_mutation _ _ _ _ _ _
    (Or.inr (Or.inl (by decide)))).2

end Autohide

namespace Autohide

/-- Helper: for an applicable sample (cursor inside the half-open monitor
rectangle) the poll cycle is exactly the zone phase followed by the timer
expiry phase, on the monitor-relative y coordinate. -/
theorem checkMousePosition_eq_of_inside (cfg : Config) (mx my : Int)
    (g : Geometry) (now : Nat) (s : AState)
    (hin : ¬(mx < g.x ∨ g.x + g.width ≤ mx ∨ my < g.y ∨ g.y + g.height ≤ my)) :
    checkMousePosition cfg (some (mx, my)) (some g) now s =
      expiryPhase cfg now (zonePhase cfg now (my - g.y) s) := by
  show (if mx < g.x ∨ g.x + g.width ≤ mx ∨ my < g.y ∨ g.y + g.height ≤ my then
      ({ st := s, emit := false } : StepResult)
    else expiryPhase cfg now (zonePhase cfg now (my - g.y) s)) =
    expiryPhase cfg now (zonePhase cfg now (my - g.y) s)
  rw [if_neg hin]

/-- Claim C8: on an applicable sample the expiry check runs on the
post-zone state; it fires the show transition (emit plus final state
VISIBLE) exactly when that state is PENDING_VISIBLE and the elapsed time
since timer start is at least max(delayShow, 10), and symmetrically for
the hide transition with max(delayHide, 10); in particular with delayShow
configured to 0 no show fires before 10 ms have elapsed. -/
theorem c8_delay_floor (cfg : Config) (now : Nat) (mx my : Int)
    (g : Geometry) (s : AState)
    (hin : ¬(mx < g.x ∨ g.x + g.width ≤ mx ∨ my < g.y ∨ g.y + g.height ≤ my)) :
    (checkMousePosition cfg (some (mx, my)) (some g) now s =
      expiryPhase cfg now (zonePhase cfg now (my - g.y) s)) ∧
    (∀ t : AState,
      (((expiryPhase cfg now t).emit = true ∧
          (expiryPhase cfg now t).st.state = WaybarState.VISIBLE) ↔
        (t.state = WaybarState.PENDING_VISIBLE ∧
          ((max cfg.delayShow 10 : Nat) : Int) ≤ (now : Int) - (t.timer : Int))) ∧
      (((expiryPhase cfg now t).emit = true ∧
          (expiryPhase cfg now t).st.state = WaybarState.HIDDEN) ↔
        (t.state = WaybarState.PENDING_HIDDEN ∧
          ((max cfg.delayHide 10 : Nat) : Int) ≤ (now : Int) - (t.timer : Int)))) ∧
    (cfg.delayShow = 0 → ∀ t : AState, t.state = WaybarState.PENDING_VISIBLE →
      (now : Int) - (t.timer : Int) < 10 →
      expiryPhase cfg now t = { st := t, emit := false }) := by
  refine ⟨checkMousePosition_eq_of_inside cfg mx my g now s hin, fun t => ⟨?_, ?_⟩, ?_⟩
  · rcases t with ⟨ts, tt, tf⟩
    cases ts <;> simp [expiryPhase] <;> split_ifs <;> simp_all
  · rcases t with ⟨ts, tt, tf⟩
    cases ts <;> simp [expiryPhase] <;> split_ifs <;> simp_all
  · intro hds t hts hlt
    rcases t with ⟨ts, tt, tf⟩
    simp only [AState.state] at hts
    subst hts
    simp only [AState.timer] at hlt
    simp [expiryPhase, hds]
    omega

end Autohide

namespace Autohide

/-- Witness for C8: with every configuration key absent, delay-show
defaults to 0, and a PENDING_VISIBLE state 5 ms after timer start does not
yet fire the show transition. -/
theorem c8_delay_floor_witness :
    expiryPhase (configFromJson none none none none none) 1005
      { state := WaybarState.PENDING_VISIBLE, timer := 1000,
        lastTriggerWasShow := false } =
      { st := { state := WaybarState.PENDING_VISIBLE, timer := 1000,
                lastTriggerWasShow := false },
        emit := false } :=
  (c8_delay_floor (configFromJson none none none none none) 1005 100 25
      { x := 0, y := 0, width := 1920, height := 1080 }
      { state := WaybarState.PENDING_VISIBLE, timer := 1000,
        lastTriggerWasShow := false }
      (by decide)).2.2 rfl
    { state := WaybarState.PENDING_VISIBLE, timer := 1000,
      lastTriggerWasShow := false }
    rfl (by decide)

/-- Claim C10: the zone tests cast the uint32 thresholds to a signed
32-bit int by wrapping modulo 2 to the 32, so every configured
threshold-hidden-y above 2 to the 31 minus 1 becomes negative; since an
in-monitor sample has monitor-relative y at least 0, such a sample is
never top-zone, and from HIDDEN the poll cycle can never leave HIDDEN
(nor emit), so cursor movement can never show a hidden bar. -/
theorem c10_threshold_cast_overflow (cfg : Config)
    (hlt : cfg.thresholdHiddenY < 2 ^ 32)
    (hgt : 2 ^ 31 - 1 < cfg.thresholdHiddenY)
    (mx my : Int) (g : Geometry) (now : Nat) (s : AState)
    (hin : ¬(mx < g.x ∨ g.x + g.width ≤ mx ∨ my < g.y ∨ g.y + g.height ≤ my)) :
    toInt32 cfg.thresholdHiddenY < 0 ∧
    ¬(my - g.y ≤ toInt32 cfg.thresholdHiddenY) ∧
    (s.state = WaybarState.HIDDEN →
      (checkMousePosition cfg (some (mx, my)) (some g) now s).st.state =
        WaybarState.HIDDEN ∧
      (checkMousePosition cfg (some (mx, my)) (some g) now s).emit = false) := by
  push_neg at hin
  obtain ⟨hx1, hx2, hy1, hy2⟩ := hin
  have hmod : cfg.thresholdHiddenY % 2 ^ 32 = cfg.thresholdHiddenY :=
    Nat.mod_eq_of_lt hlt
  have hneg : toInt32 cfg.thresholdHiddenY < 0 := by
    unfold toInt32
    rw [hmod, if_neg (by omega)]
    omega
  have htop : ¬(my - g.y ≤ toInt32 cfg.thresholdHiddenY) := by omega
  refine ⟨hneg, htop, fun hs => ?_⟩
  have hstep : checkMousePosition cfg (some (mx, my)) (some g) now s =
      expiryPhase cfg now (zonePhase cfg now (my - g.y) s) :=
    checkMousePosition_eq_of_inside cfg mx my g now s (by push_neg; exact ⟨hx1, hx2, hy1, hy2⟩)
  have hz : (zonePhase cfg now (my - g.y) s).state = WaybarState.HIDDEN := by
    unfold zonePhase
    rw [if_neg htop]
    split_ifs <;> simp_all
  rw [hstep]
  rcases hzc : zonePhase cfg now (my - g.y) s with ⟨zs, zt, zf⟩
  rw [hzc] at hz
  simp only [AState.state] at hz
  subst hz
  simp [expiryPhase]

end Autohide

namespace Autohide

/-- Witness for C10: with threshold-hidden-y configured to 2 to the 31,
a cursor at the very top pixel of the monitor (relative y 0), from HIDDEN
with the debounce flag already set, still leaves the bar HIDDEN. -/
theorem c10_threshold_cast_overflow_witness :
    (checkMousePosition
        { thresholdHiddenY := 2 ^ 31, thresholdVisibleY := 50, delayShow := 0,
          delayHide := 3000, checkInterval := 100 }
        (some (100, 0)) (some { x := 0, y := 0, width := 1920, height := 1080 })
        500
        { state := WaybarState.HIDDEN, timer := 0,
          lastTriggerWasShow := true }).st.state = WaybarState.HIDDEN :=
  ((c10_threshold_cast_overflow
      { thresholdHiddenY := 2 ^ 31, thresholdVisibleY := 50, delayShow := 0,
        delayHide := 3000, checkInterval := 100 }
      (by norm_num) (by norm_num) 100 0
      { x := 0, y := 0, width := 1920, height := 1080 } 500
      { state := WaybarState.HIDDEN, timer := 0, lastTriggerWasShow := true }
      (by decide)).2.2 rfl).1

/-- Claim C3: the timer invariant.  First part: on any sample, the zone
phase changes the state only through one of the four new-pending entries
(HIDDEN to PENDING_VISIBLE, PENDING_HIDDEN to PENDING_VISIBLE, VISIBLE to
PENDING_HIDDEN, PENDING_VISIBLE to PENDING_HIDDEN), and then the timer is
reset to the current time; when the zone phase leaves the state where it
was (in particular when it stays in the same pending state) the timer is
untouched.  Second part: from PENDING_HIDDEN an applicable bottom-zone
sample keeps the timer at its value from the first entry into
PENDING_HIDDEN, and the transition to HIDDEN fires exactly when the time
elapsed since that first entry reaches max(delayHide, 10); before that
the whole state is unchanged except that the debounce flag is cleared. -/
theorem c3_timer_reset_invariant (cfg : Config) (now : Nat) :
    (∀ (yRel : Int) (s : AState),
      ((zonePhase cfg now yRel s).state ≠ s.state →
        (zonePhase cfg now yRel s).timer = now ∧
        ((s.state = WaybarState.HIDDEN ∧
            (zonePhase cfg now yRel s).state = WaybarState.PENDING_VISIBLE) ∨
         (s.state = WaybarState.PENDING_HIDDEN ∧
            (zonePhase cfg now yRel s).state = WaybarState.PENDING_VISIBLE) ∨
         (s.state = WaybarState.VISIBLE ∧
            (zonePhase cfg now yRel s).state = WaybarState.PENDING_HIDDEN) ∨
         (s.state = WaybarState.PENDING_VISIBLE ∧
            (zonePhase cfg now yRel s).state = WaybarState.PENDING_HIDDEN))) ∧
      ((zonePhase cfg now yRel s).state = s.state →
        (zonePhase cfg now yRel s).timer = s.timer)) ∧
    (∀ (mx my : Int) (g : Geometry) (s : AState),
      ¬(mx < g.x ∨ g.x + g.width ≤ mx ∨ my < g.y ∨ g.y + g.height ≤ my) →
      s.state = WaybarState.PENDING_HIDDEN →
      toInt32 cfg.thresholdVisibleY < my - g.y →
      ¬(my - g.y ≤ toInt32 cfg.thresholdHiddenY) →
      (checkMousePosition cfg (some (mx, my)) (some g) now s).st.timer = s.timer ∧
      ((checkMousePosition cfg (some (mx, my)) (some g) now s).st.state =
          WaybarState.HIDDEN ↔
        ((max cfg.delayHide 10 : Nat) : Int) ≤ (now : Int) - (s.timer : Int)) ∧
      (¬((max cfg.delayHide 10 : Nat) : Int) ≤ (now : Int) - (s.timer : Int) →
        (checkMousePosition cfg (some (mx, my)) (some g) now s).st =
          { s with lastTriggerWasShow := false })) := by
  constructor
  · intro yRel s
    rcases s with ⟨st, tm, fl⟩
    cases st <;> cases fl <;>
      (simp [zonePhase]; split_ifs <;> simp_all)
  · intro mx my g s hin hs hbot hnt
    have hstep := checkMousePosition_eq_of_inside cfg mx my g now s hin
    have hz : zonePhase cfg now (my - g.y) s =
        { s with lastTriggerWasShow := false } := by
      unfold zonePhase
      rw [if_neg hnt, if_pos hbot]
      simp [hs]
    rw [hstep, hz]
    simp [expiryPhase, hs]
    split_ifs with hc <;> simp_all

end Autohide

namespace Autohide

/-- Witness for C3: with the default configuration, a bottom-zone sample
at time 1000 from VISIBLE resets the timer to 1000 (entry into
PENDING_HIDDEN), and a later bottom-zone sample at time 4000 from
PENDING_HIDDEN with timer 1000 leaves the timer at 1000. -/
theorem c3_timer_reset_invariant_witness :
    (zonePhase (configFromJson none none none none none) 1000 60
        { state := WaybarState.VISIBLE, timer := 0,
          lastTriggerWasShow := false }).timer = 1000 ∧
    (checkMousePosition (configFromJson none none none none none)
        (some (100, 60)) (some { x := 0, y := 0, width := 1920, height := 1080 })
        4000
        { state := WaybarState.PENDING_HIDDEN, timer := 1000,
          lastTriggerWasShow := false }).st.timer = 1000 :=
  ⟨(((c3_timer_reset_invariant (configFromJson none none none none none) 1000).1
      60 { state := WaybarState.VISIBLE, timer := 0,
           lastTriggerWasShow := false }).1 (by decide)).1,
   ((c3_timer_reset_invariant (configFromJson none none none none none) 4000).2
      100 60 { x := 0, y := 0, width := 1920, height := 1080 }
      { state := WaybarState.PENDING_HIDDEN, timer := 1000,
        lastTriggerWasShow := false }
      (by decide) rfl (by decide) (by decide)).1⟩

end Autohide
